import Mathlib

/-!
Shallow embedding of the Plantify plant-identification pipeline.

The repository consists of three Supabase edge functions — `identify-plant`
backed by Google Gemini, `identify-plant` backed by the PlantID API, and
`verify-plant` backed by an LLM gateway — together with the React
orchestrator `PlantIdentifier.processImage` and the watering calculators
in `Dashboard.tsx` and `MyPlants.tsx`.

JavaScript numbers are modelled as exact rationals (`ℚ`), absent JSON
fields as `Option`, and the JavaScript `||` defaulting idiom by functions
that also treat `""`, `false` and `0` as absent, exactly as `||` does.
External HTTP calls are modelled by a `FetchOutcome` parameter and
`JSON.parse` by an arbitrary function parameter, since their behaviour is
not part of this repository; every branch on their results is translated
from the source.
-/

namespace Plantify

/-- JS truthiness of an optional string: `undefined` and `""` are falsy. -/
def jsTruthyStr : Option String → Bool
  | none => false
  | some s => !(s == "")

/-- The JS idiom `s || d` for an optional string `s`: `undefined` and `""`
fall through to the default. -/
def jsOrStr (x : Option String) (d : String) : String :=
  match x with
  | none => d
  | some s => if s == "" then d else s

/-- The JS idiom `n || d` for an optional number `n`: `undefined` and `0`
fall through to the default. -/
def jsOrQ (x : Option ℚ) (d : ℚ) : ℚ :=
  match x with
  | none => d
  | some v => if v == 0 then d else v

/-- Rendering of a JS number into a template literal, as in
`Watering: Every N days`. -/
def numStr (q : ℚ) : String := toString q

/-- `pfxOf needle hay` models: `hay` starts with `needle` (on char lists). -/
def pfxOf : List Char → List Char → Bool
  | [], _ => true
  | _ :: _, [] => false
  | a :: as, b :: bs => a == b && pfxOf as bs

/-- `containsSub hay needle` models JS `hay.includes(needle)` on char lists. -/
def containsSub : List Char → List Char → Bool
  | [], needle => needle.isEmpty
  | h :: t, needle => pfxOf needle (h :: t) || containsSub t needle

/-- Model of JS `str.split(". ")`: scan left to right, breaking at each
non-overlapping occurrence of the two-character separator `". "`. -/
def splitDotSpace : List Char → List Char → List String
  | '.' :: ' ' :: rest, acc => String.mk acc.reverse :: splitDotSpace rest []
  | c :: rest, acc => splitDotSpace rest (c :: acc)
  | [], acc => [String.mk acc.reverse]

/-- Model of JS `Array.prototype.join(sep)`. -/
def joinSep (sep : String) : List String → String
  | [] => ""
  | [s] => s
  | s :: rest => s ++ sep ++ joinSep sep rest

/-- Model of matching the greedy regex `\x7b[\s\S]*\x7d` against `s`:
the match, when it exists, runs from the first `{` to the last `}`,
and exists exactly when some `}` occurs strictly after the first `{`. -/
def extractBraces (s : String) : Option String :=
  let cs := s.toList
  match cs.findIdx? (· == '{') with
  | none => none
  | some i =>
    match cs.reverse.findIdx? (· == '}') with
    | none => none
    | some k =>
      let j := cs.length - 1 - k
      if i < j then some (String.mk ((cs.drop i).take (j - i + 1))) else none

/-- The normalized identification result, as produced by both
`identify-plant` implementations and consumed by the client
(`IdentificationResult` in `PlantIdentifier.tsx`). -/
structure IdentificationResult where
  commonName : String
  scientificName : String
  about : String
  explanation : String
  additionalInfo : List String
  wateringFrequencyDays : ℚ
  probability : ℚ
deriving DecidableEq, Repr

/-- The JSON object the Gemini prompt asks for, as read by the
`identify-plant` (Gemini) function; every field may be absent. -/
structure PlantData where
  identified : Option Bool
  confidence : Option ℚ
  commonName : Option String
  scientificName : Option String
  about : Option String
  explanation : Option String
  wateringFrequencyDays : Option ℚ
  sunlight : Option String
  soilType : Option String
  nativeRegion : Option String
  careLevel : Option String
deriving DecidableEq, Repr

/-- Outcome of an external `fetch`, with the payload already projected to
the part of the response body the function reads. -/
inductive FetchOutcome (α : Type) where
  | transportError
  | httpError (status : Nat)
  | ok (payload : α)
deriving DecidableEq, Repr

/-- An HTTP response produced by an edge function. -/
structure HttpResponse (β : Type) where
  status : Nat
  body : β
deriving DecidableEq, Repr

/-- Body of a response from the `identify-plant` (Gemini) function. -/
inductive GeminiBody where
  | err (msg : String)
  | apiErr (msg : String)
  | lowConf (msg : String) (probability : Option ℚ)
  | ok (r : IdentificationResult)
deriving DecidableEq, Repr

/-- The Gemini confidence gate (`!plantData.identified || plantData.confidence < 0.5`).
In JS, `undefined < 0.5` is false, so an absent confidence passes the gate. -/
def geminiGate (pd : PlantData) : Bool :=
  !(pd.identified == some true) ||
    (match pd.confidence with
     | some c => decide (c < mkRat 1 2)
     | none => false)

/-- The Gemini `additionalInfo` array, with its per-entry defaults. -/
def geminiAdditionalInfo (pd : PlantData) : List String :=
  ["Watering: Every " ++ numStr (jsOrQ pd.wateringFrequencyDays 7) ++ " days",
   "Sunlight: " ++ jsOrStr pd.sunlight "Moderate indirect light",
   "Soil: " ++ jsOrStr pd.soilType "Well-draining potting mix",
   "Native to: " ++ jsOrStr pd.nativeRegion "Various regions",
   "Care Level: " ++ jsOrStr pd.careLevel "Moderate"]

/-- The Gemini result construction with its field defaults
(`identify-plant`, Gemini variant, `const result = {...}`). -/
def geminiNormalize (pd : PlantData) : IdentificationResult where
  commonName := jsOrStr pd.commonName "Unknown Plant"
  scientificName := jsOrStr pd.scientificName "Species unknown"
  about := jsOrStr pd.about "A beautiful plant species."
  explanation := jsOrStr pd.explanation (jsOrStr pd.about "No additional details available.")
  additionalInfo := geminiAdditionalInfo pd
  wateringFrequencyDays := jsOrQ pd.wateringFrequencyDays 7
  probability := jsOrQ pd.confidence (mkRat 4 5)

/-- The `identify-plant` (Gemini) edge function, from the request body to
the HTTP response, paired with the number of provider calls made.
`fetchResult`'s payload is `candidates?.[0]?.content?.parts?.[0]?.text`
and `jsonParse` stands for `JSON.parse` restricted to this shape. -/
def geminiEndpoint (imageBase64 : Option String) (apiKey : Option String)
    (fetchResult : FetchOutcome (Option String))
    (jsonParse : String → Option PlantData) :
    HttpResponse GeminiBody × Nat :=
  if !(jsTruthyStr imageBase64) then
    (⟨400, .err "Image data is required"⟩, 0)
  else
    match apiKey with
    | none => (⟨500, .apiErr "API key not configured"⟩, 0)
    | some _ =>
      match fetchResult with
      | .transportError => (⟨500, .apiErr "Unknown error"⟩, 1)
      | .httpError s =>
        if s == 429 then
          (⟨429, .apiErr "Rate limit exceeded. Please try again in a moment."⟩, 1)
        else if s == 403 then
          (⟨403, .apiErr "Invalid API key. Please check your Gemini API key."⟩, 1)
        else
          (⟨s, .apiErr "Failed to identify plant. Please try again."⟩, 1)
      | .ok content =>
        if !(jsTruthyStr content) then
          (⟨200, .lowConf "No identification result" none⟩, 1)
        else
          match (extractBraces (content.getD "")).bind jsonParse with
          | none => (⟨200, .lowConf "Failed to parse plant data" none⟩, 1)
          | some pd =>
            if geminiGate pd then
              (⟨200, .lowConf "Low confidence identification" (some (jsOrQ pd.confidence 0))⟩, 1)
            else
              (⟨200, .ok (geminiNormalize pd)⟩, 1)

/-- `plant_details.description` object of a PlantID suggestion. -/
structure PlantDescription where
  value : Option String
deriving DecidableEq, Repr

/-- `plant_details.watering` object of a PlantID suggestion. -/
structure PlantWatering where
  max : Option ℚ
deriving DecidableEq, Repr

/-- `plant_details` object of a PlantID suggestion. -/
structure PlantDetails where
  common_names : Option (List String)
  description : Option PlantDescription
  watering : Option PlantWatering
deriving DecidableEq, Repr

/-- One entry of the PlantID `suggestions` array. -/
structure PlantIdSuggestion where
  plant_name : Option String
  probability : Option ℚ
  plant_details : Option PlantDetails
deriving DecidableEq, Repr

/-- The PlantID suggestion normalization (`identify-plant`, PlantID
variant): description split into sentences on `". "`, `about` from the
first two, `explanation` from the next four, and the fixed
`additionalInfo` array. -/
def plantIdNormalize (top : PlantIdSuggestion) : IdentificationResult :=
  let plantDetails := top.plant_details.getD ⟨none, none, none⟩
  let commonNames := plantDetails.common_names.getD []
  let scientificName := jsOrStr top.plant_name "Unknown"
  let rawDescription :=
    jsOrStr (plantDetails.description.bind (·.value)) "No description available"
  let watering := jsOrQ (plantDetails.watering.bind (·.max)) 7
  let sentences := (splitDotSpace rawDescription.toList []).filter (fun s => s.length > 0)
  let about := joinSep ". " (sentences.take 2) ++ "."
  let explanation :=
    joinSep ". " ((sentences.drop 2).take 4) ++
      (if sentences.length > 2 then "." else "")
  { commonName := jsOrStr commonNames.head? scientificName
    scientificName := scientificName
    about := about
    explanation := jsOrStr (some explanation) about
    additionalInfo :=
      ["Watering: Every " ++ numStr watering ++ " days",
       "Sunlight: Moderate to bright indirect light",
       "Soil: Well-draining potting mix",
       "Growth: Moderate growth rate",
       "Native: Varies by species"]
    wateringFrequencyDays := watering
    probability := jsOrQ top.probability 0 }

/-- Body of a response from the `identify-plant` (PlantID) function. -/
inductive PlantIdBody where
  | err (msg : String)
  | ok (r : IdentificationResult)
deriving DecidableEq, Repr

/-- The `identify-plant` (PlantID) edge function. `fetchResult`'s payload
is the optional `suggestions` array of the PlantID response. -/
def plantIdEndpoint (imageBase64 : Option String) (apiKey : Option String)
    (fetchResult : FetchOutcome (Option (List PlantIdSuggestion))) :
    HttpResponse PlantIdBody × Nat :=
  if !(jsTruthyStr imageBase64) then
    (⟨400, .err "Image data is required"⟩, 0)
  else
    match apiKey with
    | none => (⟨500, .err "API key not configured"⟩, 0)
    | some _ =>
      match fetchResult with
      | .transportError => (⟨500, .err "Unknown error"⟩, 1)
      | .httpError s => (⟨s, .err "Failed to identify plant"⟩, 1)
      | .ok payload =>
        match (payload.getD []).head? with
        | none => (⟨404, .err "No plant identified"⟩, 1)
        | some top => (⟨200, .ok (plantIdNormalize top)⟩, 1)

/-- Result shape of the earlier PlantID `identify-plant` variant, which
returns the raw description instead of about/explanation. -/
structure PlantIdV1Result where
  commonName : String
  scientificName : String
  description : String
  wateringFrequencyDays : ℚ
  probability : ℚ
deriving DecidableEq, Repr

/-- Body of a response from the earlier PlantID `identify-plant` variant. -/
inductive PlantIdV1Body where
  | err (msg : String)
  | ok (r : PlantIdV1Result)
deriving DecidableEq, Repr

/-- The earlier PlantID `identify-plant` edge function variant. -/
def plantIdV1Endpoint (imageBase64 : Option String) (apiKey : Option String)
    (fetchResult : FetchOutcome (Option (List PlantIdSuggestion))) :
    HttpResponse PlantIdV1Body × Nat :=
  if !(jsTruthyStr imageBase64) then
    (⟨400, .err "Image data is required"⟩, 0)
  else
    match apiKey with
    | none => (⟨500, .err "API key not configured"⟩, 0)
    | some _ =>
      match fetchResult with
      | .transportError => (⟨500, .err "Unknown error"⟩, 1)
      | .httpError s => (⟨s, .err "Failed to identify plant"⟩, 1)
      | .ok payload =>
        match (payload.getD []).head? with
        | none => (⟨404, .err "No plant identified"⟩, 1)
        | some top =>
          let plantDetails := top.plant_details.getD ⟨none, none, none⟩
          let commonNames := plantDetails.common_names.getD []
          let scientificName := jsOrStr top.plant_name "Unknown"
          (⟨200, .ok
            { commonName := jsOrStr commonNames.head? scientificName
              scientificName := scientificName
              description :=
                jsOrStr (plantDetails.description.bind (·.value)) "No description available"
              wateringFrequencyDays := jsOrQ (plantDetails.watering.bind (·.max)) 7
              probability := jsOrQ top.probability 0 }⟩, 1)

/-- The JSON object the verifier prompt asks for; either field may be
absent in what `JSON.parse` returns. -/
structure VerifyParsed where
  isPlant : Option Bool
  confidence : Option ℚ
deriving DecidableEq, Repr

/-- A verification verdict as serialized by `verify-plant`: `fallback` and
`errorFlag` model the `fallback: true` / `error: true` markers, absent
(hence JS-falsy) when `false`. -/
structure VerifyVerdict where
  isPlant : Option Bool
  confidence : Option ℚ
  fallback : Bool
  errorFlag : Bool
deriving DecidableEq, Repr

/-- Body of a response from the `verify-plant` function. -/
inductive VerifyRespBody where
  | err (msg : String)
  | verdict (v : VerifyVerdict)
deriving DecidableEq, Repr

/-- The keyword fallback of `verify-plant`: the lower-cased response text
is affirmative when it includes any of "true", "plant", "leaf", "flower". -/
def keywordFallbackIsPlant (content : String) : Bool :=
  let lc := content.toList.map Char.toLower
  containsSub lc "true".toList || containsSub lc "plant".toList ||
    containsSub lc "leaf".toList || containsSub lc "flower".toList

/-- The `verify-plant` response-parsing stage: start from the default
`{isPlant: true, confidence: 0.5}`; if a brace-delimited candidate is
found, replace the default by `JSON.parse`'s result; only when that parse
throws is the keyword fallback applied (overwriting `isPlant` only). -/
def verifyParseStage (content : String)
    (jsonParse : String → Option VerifyParsed) : VerifyVerdict :=
  match extractBraces content with
  | none => ⟨some true, some (mkRat 1 2), false, false⟩
  | some j =>
    match jsonParse j with
    | some p => ⟨p.isPlant, p.confidence, false, false⟩
    | none => ⟨some (keywordFallbackIsPlant content), some (mkRat 1 2), false, false⟩

/-- The `verify-plant` edge function. `fetchResult`'s payload is
`choices?.[0]?.message?.content`, defaulted to `""` by `|| ''`. -/
def verifyEndpoint (imageBase64 : Option String) (apiKey : Option String)
    (fetchResult : FetchOutcome (Option String))
    (jsonParse : String → Option VerifyParsed) :
    HttpResponse VerifyRespBody × Nat :=
  if !(jsTruthyStr imageBase64) then
    (⟨400, .err "Image data is required"⟩, 0)
  else
    match apiKey with
    | none => (⟨500, .err "API key not configured"⟩, 0)
    | some _ =>
      match fetchResult with
      | .transportError =>
        (⟨200, .verdict ⟨some true, some (mkRat 1 2), false, true⟩⟩, 1)
      | .httpError _ =>
        (⟨200, .verdict ⟨some true, some (mkRat 1 2), true, false⟩⟩, 1)
      | .ok content =>
        (⟨200, .verdict (verifyParseStage (content.getD "") jsonParse)⟩, 1)

/-- What `supabase.functions.invoke` hands back to the client: `data` for
a 2xx response, `error` otherwise. -/
structure InvokeResult (α : Type) where
  data : Option α
  error : Bool
deriving DecidableEq, Repr

/-- The identify-plant response body as the client reads it:
`data.lowConfidence`, `data.commonName` (absent modelled `""`), and the
full result payload when the body is a result object. -/
structure IdentifyClientData where
  lowConfidence : Bool
  commonName : String
  payload : Option IdentificationResult
deriving DecidableEq, Repr

/-- 2xx check used by the invoke wrapper. -/
def is2xx (n : Nat) : Bool := 200 ≤ n && n < 300

/-- The client's view of a Gemini `identify-plant` response. -/
def geminiClientView (resp : HttpResponse GeminiBody) : InvokeResult IdentifyClientData :=
  if is2xx resp.status then
    { data := some (match resp.body with
        | .err _ => ⟨false, "", none⟩
        | .apiErr _ => ⟨false, "", none⟩
        | .lowConf _ _ => ⟨true, "", none⟩
        | .ok r => ⟨false, r.commonName, some r⟩)
      error := false }
  else
    { data := none, error := true }

/-- The client's view of a PlantID `identify-plant` response. -/
def plantIdClientView (resp : HttpResponse PlantIdBody) : InvokeResult IdentifyClientData :=
  if is2xx resp.status then
    { data := some (match resp.body with
        | .err _ => ⟨false, "", none⟩
        | .ok r => ⟨false, r.commonName, some r⟩)
      error := false }
  else
    { data := none, error := true }

/-- Pipeline outcomes of `PlantIdentifier.processImage`: the not-a-plant
rejection, the low-confidence message (also used when the response body
has neither `lowConfidence` nor `commonName`), a successful
identification, and the catch-all transient failure. -/
inductive PipelineOutcome where
  | notAPlant
  | lowConfidence
  | success (d : IdentifyClientData)
  | transientError
deriving DecidableEq, Repr

/-- The verification short-circuit test of `processImage`: no verify
error, a data object, and `!verifyData.isPlant` (absent `isPlant` is
falsy, hence also short-circuits). -/
def shortCircuits (v : InvokeResult VerifyVerdict) : Bool :=
  !v.error &&
    (match v.data with
     | some vd => !(vd.isPlant == some true)
     | none => false)

/-- The orchestrator `PlantIdentifier.processImage`, from the verify
invoke result and the (lazily invoked) identify call to the pipeline
outcome, paired with the number of identification calls made. -/
def processImage (v : InvokeResult VerifyVerdict)
    (idf : Unit → InvokeResult IdentifyClientData) : PipelineOutcome × Nat :=
  if shortCircuits v then
    (.notAPlant, 0)
  else
    let rep := idf ()
    if rep.error then
      (.transientError, 1)
    else
      match rep.data with
      | some d =>
        if d.lowConfidence then (.lowConfidence, 1)
        else if !(d.commonName == "") then (.success d, 1)
        else (.lowConfidence, 1)
      | none => (.lowConfidence, 1)

/-- The full pipeline when `identify-plant` is backed by Gemini. -/
def geminiPipeline (v : InvokeResult VerifyVerdict) (img key : Option String)
    (fetchResult : FetchOutcome (Option String))
    (jsonParse : String → Option PlantData) : PipelineOutcome × Nat :=
  processImage v (fun _ => geminiClientView (geminiEndpoint img key fetchResult jsonParse).1)

/-- The full pipeline when `identify-plant` is backed by PlantID. -/
def plantIdPipeline (v : InvokeResult VerifyVerdict) (img key : Option String)
    (fetchResult : FetchOutcome (Option (List PlantIdSuggestion))) : PipelineOutcome × Nat :=
  processImage v (fun _ => plantIdClientView (plantIdEndpoint img key fetchResult).1)

/-- The shared watering calculator in `Dashboard.tsx`
(`getDaysUntilWatering`): timestamps in milliseconds, day addition by
date components (one calendar day = `dayMs` in this DST-free model), and
`Math.ceil` of the millisecond difference over one day. -/
def dayMs : Int := 1000 * 60 * 60 * 24

/-- Ceiling division of integers for a positive divisor, as `Math.ceil`
of the exact quotient. -/
def ceilDivInt (a b : Int) : Int := -(Int.ediv (-a) b)

namespace Dashboard

/-- `getDaysUntilWatering` from `Dashboard.tsx`. -/
def getDaysUntilWatering (lastWatered frequency now : Int) : Int :=
  let nextWateringDate := lastWatered + frequency * dayMs
  let diffTime := nextWateringDate - now
  ceilDivInt diffTime dayMs

end Dashboard

namespace MyPlants

/-- `getDaysUntilWatering` from `MyPlants.tsx`. -/
def getDaysUntilWatering (lastWatered frequency now : Int) : Int :=
  let nextWateringDate := lastWatered + frequency * dayMs
  let diffTime := nextWateringDate - now
  ceilDivInt diffTime dayMs

end MyPlants

/-! Concrete sample inputs used to instantiate the theorems below. -/

/-- A verify invoke result that affirms a plant and does not short-circuit. -/
def vYes : InvokeResult VerifyVerdict :=
  ⟨some ⟨some true, some (mkRat 9 10), false, false⟩, false⟩

/-- A PlantID suggestion with probability 0.3 and no details. -/
def lowSugg : PlantIdSuggestion := ⟨some "Rosa", some (mkRat 3 10), none⟩

/-- The rose suggestion of the normalization scenario. -/
def roseSugg : PlantIdSuggestion :=
  ⟨some "Rosa", some (mkRat 9 10),
   some ⟨some ["Rose"],
         some ⟨some "A flowering shrub. It has thorns. It blooms in summer. It needs full sun."⟩,
         some ⟨some 5⟩⟩⟩

/-- A parsed Gemini payload: identified, confidence 0.3, nothing else. -/
def pdConf : PlantData :=
  ⟨some true, some (mkRat 3 10), none, none, none, none, none, none, none, none, none⟩

/-- A parsed Gemini payload: identified, confidence 0.9, nothing else. -/
def pdOkC : PlantData :=
  ⟨some true, some (mkRat 9 10), none, none, none, none, none, none, none, none, none⟩

/-- A parsed Gemini payload with every optional field absent except
`identified`. -/
def pdNoneT : PlantData :=
  ⟨some true, none, none, none, none, none, none, none, none, none, none⟩

/-- A PlantID suggestion with every field absent. -/
def topNone : PlantIdSuggestion := ⟨none, none, none⟩

end Plantify

open Plantify

/-- C6: `getDaysUntilWatering` computes the ceiling of
`(lastWateredAt + frequencyDays days - now) / 1 day`; in particular
`daysUntilWatering(now - 7 days, 7) = 0`,
`daysUntilWatering(now - 10 days, 7) = -3`, and
`daysUntilWatering(now, 7) = 7`; and the dashboard and the collection
view compute identically. -/
theorem c6_daysUntilWatering_calendar (l f now : Int) :
    Dashboard.getDaysUntilWatering l f now = ceilDivInt (l + f * dayMs - now) dayMs
    ∧ MyPlants.getDaysUntilWatering l f now = Dashboard.getDaysUntilWatering l f now
    ∧ Dashboard.getDaysUntilWatering (now - 7 * dayMs) 7 now = 0
    ∧ Dashboard.getDaysUntilWatering (now - 10 * dayMs) 7 now = -3
    ∧ Dashboard.getDaysUntilWatering now 7 now = 7 := by
  refine ⟨rfl, rfl, ?_, ?_, ?_⟩
  · show ceilDivInt (now - 7 * dayMs + 7 * dayMs - now) dayMs = 0
    have h : now - 7 * dayMs + 7 * dayMs - now = (0 : Int) := by ring
    rw [h]; decide
  · show ceilDivInt (now - 10 * dayMs + 7 * dayMs - now) dayMs = -3
    have h : now - 10 * dayMs + 7 * dayMs - now = -3 * dayMs := by ring
    rw [h]; decide
  · show ceilDivInt (now + 7 * dayMs - now) dayMs = 7
    have h : now + 7 * dayMs - now = 7 * dayMs := by ring
    rw [h]; decide

/-- C7: normalizing the rose suggestion
`{plant_name: "Rosa", probability: 0.9, plant_details: {common_names:
["Rose"], description: {value: "A flowering shrub. It has thorns. It
blooms in summer. It needs full sun."}, watering: {max: 5}}}` yields
`commonName = "Rose"`, `scientificName = "Rosa"`,
`about = "A flowering shrub. It has thorns."`,
`wateringFrequencyDays = 5`, `probability = 0.9`. -/
theorem c7_rose_normalization :
    (plantIdNormalize roseSugg).commonName = "Rose"
    ∧ (plantIdNormalize roseSugg).scientificName = "Rosa"
    ∧ (plantIdNormalize roseSugg).about = "A flowering shrub. It has thorns."
    ∧ (plantIdNormalize roseSugg).wateringFrequencyDays = 5
    ∧ (plantIdNormalize roseSugg).probability = mkRat 9 10 := by
  decide

/-- C3: when the verifier outcome has `isPlant = false` and
`fallback = false` (no verify error), `processImage` returns the
not-a-plant outcome and makes zero identification calls, whatever the
identification function would have answered. -/
theorem c3_notAPlant_short_circuit (v : InvokeResult VerifyVerdict) (vd : VerifyVerdict)
    (idf : Unit → InvokeResult IdentifyClientData)
    (hE : v.error = false) (hd : v.data = some vd)
    (hp : vd.isPlant = some false) (_hf : vd.fallback = false) :
    processImage v idf = (.notAPlant, 0) := by
  simp [processImage, shortCircuits, hE, hd, hp]

/-- C3 witness: a concrete non-fallback `isPlant = false` verdict
short-circuits with zero identification calls. -/
theorem c3_notAPlant_short_circuit_witness :
    processImage ⟨some ⟨some false, some (mkRat 9 10), false, false⟩, false⟩
        (fun _ => ⟨none, true⟩) = (.notAPlant, 0) :=
  c3_notAPlant_short_circuit _ ⟨some false, some (mkRat 9 10), false, false⟩ _
    rfl rfl rfl rfl

/-- C2 counterexample: on a transport failure the `verify-plant` function
returns `{isPlant: true, confidence: 0.5, error: true}`, not the claimed
`{isPlant: true, confidence: 0.5, fallback: true}` — the `fallback`
marker is absent. -/
theorem c2_counterexample :
    (verifyEndpoint (some "img") (some "k") .transportError (fun _ => none)).1 =
      ⟨200, .verdict ⟨some true, some (mkRat 1 2), false, true⟩⟩
    ∧ (verifyEndpoint (some "img") (some "k") .transportError (fun _ => none)).1.body ≠
      .verdict ⟨some true, some (mkRat 1 2), true, false⟩ := by
  decide

/-- C2 (amended): any non-2xx classifier status yields
`{isPlant: true, confidence: 0.5, fallback: true}` with HTTP status 200,
and any transport failure yields
`{isPlant: true, confidence: 0.5, error: true}` with HTTP status 200;
neither is surfaced to the caller as an error. -/
theorem c2_fail_open (i k : String) (s : Nat)
    (jsonParse : String → Option VerifyParsed) (hi : i ≠ "") :
    verifyEndpoint (some i) (some k) (.httpError s) jsonParse =
      (⟨200, .verdict ⟨some true, some (mkRat 1 2), true, false⟩⟩, 1)
    ∧ verifyEndpoint (some i) (some k) .transportError jsonParse =
      (⟨200, .verdict ⟨some true, some (mkRat 1 2), false, true⟩⟩, 1) := by
  constructor <;> simp [verifyEndpoint, jsTruthyStr, hi]

/-- C2 witness: the amended failure semantics at a concrete request. -/
theorem c2_fail_open_witness :
    verifyEndpoint (some "img") (some "k") (.httpError 500) (fun _ => none) =
      (⟨200, .verdict ⟨some true, some (mkRat 1 2), true, false⟩⟩, 1)
    ∧ verifyEndpoint (some "img") (some "k") .transportError (fun _ => none) =
      (⟨200, .verdict ⟨some true, some (mkRat 1 2), false, true⟩⟩, 1) :=
  c2_fail_open "img" "k" 500 (fun _ => none) (by decide)

/-- C9: when the request body has no (or an empty) `imageBase64`, every
endpoint — `identify-plant` (Gemini), `identify-plant` (PlantID, both
variants) and `verify-plant` — answers 400 `{error: "Image data is
required"}` and makes no external provider call. -/
theorem c9_missing_image_guard (img key : Option String)
    (fr1 : FetchOutcome (Option String)) (jp1 : String → Option PlantData)
    (fr2 fr3 : FetchOutcome (Option (List PlantIdSuggestion)))
    (fr4 : FetchOutcome (Option String)) (jp4 : String → Option VerifyParsed)
    (h : jsTruthyStr img = false) :
    geminiEndpoint img key fr1 jp1 = (⟨400, .err "Image data is required"⟩, 0)
    ∧ plantIdEndpoint img key fr2 = (⟨400, .err "Image data is required"⟩, 0)
    ∧ plantIdV1Endpoint img key fr3 = (⟨400, .err "Image data is required"⟩, 0)
    ∧ verifyEndpoint img key fr4 jp4 = (⟨400, .err "Image data is required"⟩, 0) := by
  refine ⟨?_, ?_, ?_, ?_⟩ <;>
    simp [geminiEndpoint, plantIdEndpoint, plantIdV1Endpoint, verifyEndpoint, h]

/-- C9 witness: the guard at a concrete body with `imageBase64` absent. -/
theorem c9_missing_image_guard_witness :
    geminiEndpoint none (some "k") .transportError (fun _ => none) =
      (⟨400, .err "Image data is required"⟩, 0)
    ∧ plantIdEndpoint none (some "k") .transportError =
      (⟨400, .err "Image data is required"⟩, 0)
    ∧ plantIdV1Endpoint none (some "k") .transportError =
      (⟨400, .err "Image data is required"⟩, 0)
    ∧ verifyEndpoint none (some "k") .transportError (fun _ => none) =
      (⟨400, .err "Image data is required"⟩, 0) :=
  c9_missing_image_guard none (some "k") .transportError (fun _ => none)
    .transportError .transportError .transportError (fun _ => none) rfl

/-- C8 counterexample: for the response text `"no"` there is no
brace-delimited object, parsing yields no JSON object, yet the verifier
keeps the affirmative default `isPlant = true` instead of applying the
keyword heuristic, which would answer `false` here. -/
theorem c8_counterexample :
    verifyParseStage "no" (fun _ => none) = ⟨some true, some (mkRat 1 2), false, false⟩
    ∧ keywordFallbackIsPlant "no" = false
    ∧ extractBraces "no" = none := by
  decide

/-- C8 (amended): the keyword heuristic (affirmative iff the text
contains "true", "plant", "leaf" or "flower", case-insensitively) is
applied exactly when a brace-delimited candidate is found but fails to
parse; when no brace-delimited object exists, the default
`{isPlant: true, confidence: 0.5}` is returned unchanged. -/
theorem c8_keyword_fallback (content j : String)
    (jsonParse : String → Option VerifyParsed) :
    (extractBraces content = some j → jsonParse j = none →
      verifyParseStage content jsonParse =
        ⟨some (keywordFallbackIsPlant content), some (mkRat 1 2), false, false⟩)
    ∧ (extractBraces content = none →
      verifyParseStage content jsonParse = ⟨some true, some (mkRat 1 2), false, false⟩) := by
  constructor
  · intro h1 h2
    simp [verifyParseStage, h1, h2]
  · intro h1
    simp [verifyParseStage, h1]

/-- C8 witness: a brace-delimited candidate that fails to parse triggers
the keyword heuristic at a concrete response text. -/
theorem c8_keyword_fallback_witness :
    extractBraces "{x}" = some "{x}"
    ∧ verifyParseStage "{x}" (fun _ => none) =
      ⟨some (keywordFallbackIsPlant "{x}"), some (mkRat 1 2), false, false⟩ :=
  ⟨by decide, (c8_keyword_fallback "{x}" "{x}" (fun _ => none)).1 (by decide) rfl⟩

/-- C5 counterexample: a PlantID suggestion with `probability` missing is
normalized to `probability = 0`, not the claimed identification-provider
default `0.8`. -/
theorem c5_counterexample :
    (plantIdNormalize ⟨some "Rosa", none, none⟩).probability = 0
    ∧ (plantIdNormalize ⟨some "Rosa", none, none⟩).probability ≠ mkRat 4 5 := by
  decide

/-- C5 (amended): every missing field is defaulted, never left absent,
but by per-path literals: the Gemini normalizer uses `commonName →
"Unknown Plant"`, `scientificName → "Species unknown"`, `about → "A
beautiful plant species."` (a literal, not derived from `explanation`),
`explanation → about` else `"No additional details available."`,
`wateringFrequencyDays → 7`, `confidence → probability 0.8`; the PlantID
normalizer uses `commonName →` the scientific name, `plant_name →
"Unknown"`, description default `"No description available"`,
`watering → 7`, and `probability → 0` (not `0.8`). -/
theorem c5_defaults (pd : PlantData) (top : PlantIdSuggestion)
    (h1 : pd.commonName = none) (h2 : pd.scientificName = none) (h3 : pd.about = none)
    (h4 : pd.explanation = none) (h5 : pd.wateringFrequencyDays = none)
    (h6 : pd.confidence = none) (h7 : pd.sunlight = none) (h8 : pd.soilType = none)
    (h9 : pd.nativeRegion = none) (h10 : pd.careLevel = none)
    (t1 : top.plant_name = none) (t2 : top.probability = none)
    (t3 : top.plant_details = none) :
    geminiNormalize pd =
      { commonName := "Unknown Plant", scientificName := "Species unknown",
        about := "A beautiful plant species.",
        explanation := "No additional details available.",
        additionalInfo := ["Watering: Every 7 days", "Sunlight: Moderate indirect light",
          "Soil: Well-draining potting mix", "Native to: Various regions",
          "Care Level: Moderate"],
        wateringFrequencyDays := 7, probability := mkRat 4 5 }
    ∧ plantIdNormalize top =
      { commonName := "Unknown", scientificName := "Unknown",
        about := "No description available.",
        explanation := "No description available.",
        additionalInfo := ["Watering: Every 7 days",
          "Sunlight: Moderate to bright indirect light",
          "Soil: Well-draining potting mix", "Growth: Moderate growth rate",
          "Native: Varies by species"],
        wateringFrequencyDays := 7, probability := 0 } := by
  cases pd
  cases top
  subst h1 h2 h3 h4 h5 h6 h7 h8 h9 h10 t1 t2 t3
  exact ⟨rfl, rfl⟩

/-- C5 witness: the amended defaults at concrete all-missing payloads. -/
theorem c5_defaults_witness :
    geminiNormalize pdNoneT =
      { commonName := "Unknown Plant", scientificName := "Species unknown",
        about := "A beautiful plant species.",
        explanation := "No additional details available.",
        additionalInfo := ["Watering: Every 7 days", "Sunlight: Moderate indirect light",
          "Soil: Well-draining potting mix", "Native to: Various regions",
          "Care Level: Moderate"],
        wateringFrequencyDays := 7, probability := mkRat 4 5 }
    ∧ plantIdNormalize topNone =
      { commonName := "Unknown", scientificName := "Unknown",
        about := "No description available.",
        explanation := "No description available.",
        additionalInfo := ["Watering: Every 7 days",
          "Sunlight: Moderate to bright indirect light",
          "Soil: Well-draining potting mix", "Growth: Moderate growth rate",
          "Native: Varies by species"],
        wateringFrequencyDays := 7, probability := 0 } :=
  c5_defaults pdNoneT topNone rfl rfl rfl rfl rfl rfl rfl rfl rfl rfl rfl rfl rfl

/-- C1 counterexample: on the PlantID identification path a candidate
whose probability is 0.3 (< 0.5) flows through the pipeline to the
Success outcome — the PlantID variant applies no confidence gate. -/
theorem c1_counterexample :
    plantIdPipeline vYes (some "img") (some "key") (.ok (some [lowSugg])) =
      (.success ⟨false, "Rosa", some (plantIdNormalize lowSugg)⟩, 1)
    ∧ (plantIdNormalize lowSugg).probability < mkRat 1 2 := by
  decide

/-- C1 (amended): on the Gemini identification path, whenever the parsed
candidate carries a confidence strictly below 0.5, the endpoint answers
200 with `lowConfidence: true` and the pipeline yields the LowConfidence
outcome and never Success; the PlantID path applies no such gate. -/
theorem c1_gemini_gate (v : InvokeResult VerifyVerdict) (i k : String)
    (content : Option String) (jsonParse : String → Option PlantData)
    (pd : PlantData) (c : ℚ)
    (hv : shortCircuits v = false) (hi : i ≠ "")
    (hcontent : jsTruthyStr content = true)
    (hp : (extractBraces (content.getD "")).bind jsonParse = some pd)
    (hc : pd.confidence = some c) (hlt : c < mkRat 1 2) :
    geminiPipeline v (some i) (some k) (.ok content) jsonParse = (.lowConfidence, 1)
    ∧ ∀ d, (geminiPipeline v (some i) (some k) (.ok content) jsonParse).1 ≠ .success d := by
  have hi' : jsTruthyStr (some i) = true := by simp [jsTruthyStr, hi]
  have hg : geminiGate pd = true := by simp [geminiGate, hc, hlt]
  have hmain : geminiPipeline v (some i) (some k) (.ok content) jsonParse =
      (.lowConfidence, 1) := by
    simp [geminiPipeline, processImage, hv, geminiEndpoint, hi', hcontent, hp, hg,
      geminiClientView, is2xx]
  exact ⟨hmain, fun d => by rw [hmain]; simp⟩

/-- C1 witness: a Gemini candidate with confidence 0.3 yields the
LowConfidence outcome at a concrete run. -/
theorem c1_gemini_gate_witness :
    shortCircuits vYes = false
    ∧ geminiPipeline vYes (some "img") (some "key") (.ok (some "{x}"))
        (fun _ => some pdConf) = (.lowConfidence, 1) :=
  ⟨by decide,
   (c1_gemini_gate vYes "img" "key" (some "{x}") (fun _ => some pdConf) pdConf
      (mkRat 3 10) (by decide) (by decide) (by decide) (by decide) rfl (by decide)).1⟩

/-- C4: whenever the Gemini response content cannot be deserialized into
a JSON object — in particular when it holds no brace-delimited object at
all — the endpoint answers 200 with `lowConfidence: true`, and the
orchestrator maps that to the LowConfidence outcome, not TransientError. -/
theorem c4_parse_failure_lowConfidence (v : InvokeResult VerifyVerdict) (i k : String)
    (content : Option String) (jsonParse : String → Option PlantData)
    (hv : shortCircuits v = false) (hi : i ≠ "")
    (hcontent : jsTruthyStr content = true)
    (hp : (extractBraces (content.getD "")).bind jsonParse = none) :
    (geminiEndpoint (some i) (some k) (.ok content) jsonParse).1 =
      ⟨200, .lowConf "Failed to parse plant data" none⟩
    ∧ geminiPipeline v (some i) (some k) (.ok content) jsonParse = (.lowConfidence, 1)
    ∧ (geminiPipeline v (some i) (some k) (.ok content) jsonParse).1 ≠ .transientError
    ∧ (∀ s : String, extractBraces s = none → (extractBraces s).bind jsonParse = none) := by
  have hi' : jsTruthyStr (some i) = true := by simp [jsTruthyStr, hi]
  have hE : (geminiEndpoint (some i) (some k) (.ok content) jsonParse).1 =
      ⟨200, .lowConf "Failed to parse plant data" none⟩ := by
    simp [geminiEndpoint, hi', hcontent, hp]
  have hmain : geminiPipeline v (some i) (some k) (.ok content) jsonParse =
      (.lowConfidence, 1) := by
    simp [geminiPipeline, processImage, hv, geminiEndpoint, hi', hcontent, hp,
      geminiClientView, is2xx]
  refine ⟨hE, hmain, by rw [hmain]; simp, fun s hs => by rw [hs]; rfl⟩

/-- C4 witness: content with no brace-delimited object yields the 200
`lowConfidence` body and the LowConfidence outcome at a concrete run. -/
theorem c4_parse_failure_lowConfidence_witness :
    (geminiEndpoint (some "img") (some "key") (.ok (some "no json here"))
        (fun _ => none)).1 = ⟨200, .lowConf "Failed to parse plant data" none⟩
    ∧ geminiPipeline vYes (some "img") (some "key") (.ok (some "no json here"))
        (fun _ => none) = (.lowConfidence, 1) :=
  ⟨(c4_parse_failure_lowConfidence vYes "img" "key" (some "no json here") (fun _ => none)
      (by decide) (by decide) (by decide) (by decide)).1,
   (c4_parse_failure_lowConfidence vYes "img" "key" (some "no json here") (fun _ => none)
      (by decide) (by decide) (by decide) (by decide)).2.1⟩

/-- C10: every Success result body emitted by either identification
provider path carries an `additionalInfo` list of exactly five strings,
the first of the form `Watering: Every N days` with `N` the result's
watering frequency. -/
theorem c10_additionalInfo_shape (img key : Option String)
    (fr : FetchOutcome (Option String)) (jp : String → Option PlantData)
    (fr2 : FetchOutcome (Option (List PlantIdSuggestion)))
    (r r2 : IdentificationResult) :
    ((geminiEndpoint img key fr jp).1.body = .ok r →
      r.additionalInfo.length = 5 ∧
        r.additionalInfo.head? =
          some ("Watering: Every " ++ numStr r.wateringFrequencyDays ++ " days"))
    ∧ ((plantIdEndpoint img key fr2).1.body = .ok r2 →
      r2.additionalInfo.length = 5 ∧
        r2.additionalInfo.head? =
          some ("Watering: Every " ++ numStr r2.wateringFrequencyDays ++ " days")) := by
  constructor
  · intro h
    cases hjs : jsTruthyStr img with
    | false => simp [geminiEndpoint, hjs] at h
    | true =>
      cases key with
      | none => simp [geminiEndpoint, hjs] at h
      | some k =>
        cases fr with
        | transportError => simp [geminiEndpoint, hjs] at h
        | httpError s =>
          simp only [geminiEndpoint, hjs, Bool.not_true, Bool.false_eq_true,
            if_false] at h
          split at h <;> (try split at h) <;> simp at h
        | ok content =>
          cases hc2 : jsTruthyStr content with
          | false => simp [geminiEndpoint, hjs, hc2] at h
          | true =>
            cases hb : (extractBraces (content.getD "")).bind jp with
            | none => simp [geminiEndpoint, hjs, hc2, hb] at h
            | some pd =>
              cases hg : geminiGate pd with
              | true => simp [geminiEndpoint, hjs, hc2, hb, hg] at h
              | false =>
                simp [geminiEndpoint, hjs, hc2, hb, hg] at h
                subst h
                exact ⟨rfl, rfl⟩
  · intro h
    cases hjs : jsTruthyStr img with
    | false => simp [plantIdEndpoint, hjs] at h
    | true =>
      cases key with
      | none => simp [plantIdEndpoint, hjs] at h
      | some k =>
        cases fr2 with
        | transportError => simp [plantIdEndpoint, hjs] at h
        | httpError s => simp [plantIdEndpoint, hjs] at h
        | ok payload =>
          cases hh : (payload.getD []).head? with
          | none => simp [plantIdEndpoint, hjs, hh] at h
          | some top =>
            simp [plantIdEndpoint, hjs, hh] at h
            subst h
            exact ⟨rfl, rfl⟩

/-- C10 witness: the five-entry `additionalInfo` shape at a concrete
successful run of each provider path. -/
theorem c10_additionalInfo_shape_witness :
    ((geminiNormalize pdOkC).additionalInfo.length = 5 ∧
      (geminiNormalize pdOkC).additionalInfo.head? =
        some ("Watering: Every " ++ numStr (geminiNormalize pdOkC).wateringFrequencyDays
          ++ " days"))
    ∧ ((plantIdNormalize roseSugg).additionalInfo.length = 5 ∧
      (plantIdNormalize roseSugg).additionalInfo.head? =
        some ("Watering: Every " ++ numStr (plantIdNormalize roseSugg).wateringFrequencyDays
          ++ " days")) :=
  ⟨(c10_additionalInfo_shape (some "img") (some "key") (.ok (some "{x}"))
      (fun _ => some pdOkC) (.ok (some [roseSugg])) (geminiNormalize pdOkC)
      (plantIdNormalize roseSugg)).1 (by decide),
   (c10_additionalInfo_shape (some "img") (some "key") (.ok (some "{x}"))
      (fun _ => some pdOkC) (.ok (some [roseSugg])) (geminiNormalize pdOkC)
      (plantIdNormalize roseSugg)).2 (by decide)⟩
